import Mathlib

/-
A shallow embedding of the fenrir-rs logging backends (src/noop.rs and
src/ureq.rs): the no-op backend `NopBackend` and the HTTP backend
`UreqBackend` together with the request-construction logic of
`UreqBackend::send`.  External collaborators (the url crate's `Url::join`,
the ureq HTTP agent, the serialization function) are modelled explicitly:
the HTTP transport is an oracle parameter, and each `send` records the
list of HTTP requests it issues so that "performs no I/O" and "a single
POST" are expressible.  Rust panics (`unwrap` on an `Err`) are modelled by
a dedicated `Outcome.panicked` constructor, distinct from the ordinary
error return `Outcome.err`.
-/

set_option autoImplicit false

namespace Fenrir

/-- `AuthenticationMethod` from the crate root: variants `None` and `Basic`
(the only two variants matched in `UreqBackend::send`). -/
inductive AuthenticationMethod where
  | none
  | basic
  deriving DecidableEq, Repr

/-- One Loki log stream: a label set and a list of (timestamp, line) values.
The backends treat the payload as opaque and only hand it to the
serialization function, so any concrete representation works. -/
structure LogStream where
  labels : List (String × String)
  values : List (String × String)
  deriving DecidableEq, Repr

/-- `Streams`: the opaque batch of log streams passed to `send`. -/
structure Streams where
  streams : List LogStream
  deriving DecidableEq, Repr

/-- `SerializationFn`: the injected serializer; returns the textual payload
or an error. -/
abbrev SerializationFn := Streams → Except String String

/-- Model of the url crate's `Url` as used by the backend: scheme, host,
optional port, path, and the cannot-be-a-base flag (true for URLs with an
opaque path such as `data:` or `mailto:` URLs, which reject relative
references in `join`). Query and fragment are omitted: the backend never
inspects or produces them. -/
structure Url where
  scheme : String
  host : String
  port : Option Nat
  path : String
  cannotBeABase : Bool
  deriving DecidableEq, Repr

/-- Model of `url::Url::join` for path-absolute relative references
(inputs starting with `/`, the only shape the backend ever passes):
per the WHATWG URL standard the result keeps the base's scheme, host and
port and replaces the whole path with the reference's path; joining any
relative reference onto a cannot-be-a-base URL fails with the url crate's
`RelativeUrlWithCannotBeABaseBase` error. -/
def Url.join (base : Url) (input : String) : Except String Url :=
  if base.cannotBeABase then
    Except.error "relative URL with a cannot-be-a-base base"
  else
    Except.ok { base with path := input }

/-- Serialization of a (non-cannot-be-a-base) `Url` back to a string, as
the url crate's `Display` renders it: `scheme://host[:port]path`. -/
def Url.render (u : Url) : String :=
  u.scheme ++ "://" ++ u.host ++
    (match u.port with
     | Option.some p => ":" ++ toString p
     | Option.none => "") ++
    u.path

/-- The fixed, versioned push path joined onto the endpoint in
`UreqBackend::send` (src/ureq.rs line 27). -/
def pushPath : String := "/loki/api/v1/push"

/-- An outgoing HTTP request as assembled by `UreqBackend::send`:
method, target URL, header list (in insertion order), the agent's request
timeout in seconds, and the body string. -/
structure Request where
  method : String
  url : Url
  headers : List (String × String)
  timeoutSecs : Nat
  body : String
  deriving DecidableEq, Repr

/-- The network transport oracle: the outcome ureq's `send_string`
produces for a request (success, or a transport error rendered to a
string). -/
abbrev Transport := Request → Except String Unit

/-- Result of running a Rust function that may return `Ok`, return `Err`,
or abort via a panic (`unwrap` on an `Err` value). -/
inductive Outcome (α : Type) where
  | ok : α → Outcome α
  | err : String → Outcome α
  | panicked : String → Outcome α
  deriving DecidableEq, Repr

/-- Whether an `Outcome` is an explicit error value returned to the caller
(as opposed to success or an abort). -/
def Outcome.isErrValue : Outcome Unit → Bool
  | Outcome.err _ => true
  | _ => false

/-- The message produced by Rust's `Result::unwrap` when called on an
`Err` value carrying `e`. -/
def panicMessage (e : String) : String :=
  "called Result::unwrap() on an Err value: " ++ e

/-- `NopBackend` (src/noop.rs): a unit struct with no stored state. -/
structure NopBackend where
  deriving DecidableEq, Repr

/-- `UreqBackend` (src/ureq.rs): endpoint URL, authentication method and
pre-encoded credential string. -/
structure UreqBackend where
  endpoint : Url
  authentication : AuthenticationMethod
  credentials : String
  deriving DecidableEq, Repr

/-- What one `send` call did: its returned outcome, the HTTP requests it
issued (in order), and the backend's stored configuration after the call. -/
structure SendEffect (β : Type) where
  result : Outcome Unit
  requests : List Request
  post : β
  deriving DecidableEq, Repr

/-- `NopBackend::send` (src/noop.rs lines 7-9): `Ok(())`, ignoring the
payload; no request is issued and the (empty) state is untouched. -/
def NopBackend.send (b : NopBackend) (_streams : Streams) : SendEffect NopBackend :=
  { result := Outcome.ok (), requests := [], post := b }

/-- `NopBackend::authentication_method` (src/noop.rs lines 11-13). -/
def NopBackend.authentication_method (_b : NopBackend) : AuthenticationMethod :=
  AuthenticationMethod.none

/-- `NopBackend::credentials` (src/noop.rs lines 15-17). -/
def NopBackend.credentials (_b : NopBackend) : Option String :=
  Option.none

/-- The request `UreqBackend::send` builds (src/ureq.rs lines 28-39) for a
given push URL and serialized body: a POST with the Content-Type header
set first, then — only when the stored method is `Basic` — an
`Authorization: Basic <stored credentials>` header, with the agent's
10-second timeout. -/
def UreqBackend.requestFor (b : UreqBackend) (post_url : Url) (body : String) : Request :=
  { method := "POST"
    url := post_url
    headers := ("Content-Type", "application/json; charset=utf-8") ::
      (match b.authentication with
       | AuthenticationMethod.none => []
       | AuthenticationMethod.basic => [("Authorization", "Basic " ++ b.credentials)])
    timeoutSecs := 10
    body := body }

/-- `UreqBackend::send` (src/ureq.rs lines 19-48).  The serializer result
and the URL join are both forced with `.unwrap()` in the source, so an
`Err` from either aborts (models as `Outcome.panicked`) instead of being
returned; a transport failure is returned as `Err(e.to_string())`; on
transport success the call returns `Ok(())`.  Exactly one request is
issued when and only when serialization and joining both succeed. -/
def UreqBackend.send (b : UreqBackend) (streams : Streams) (serializer : SerializationFn)
    (transport : Transport) : SendEffect UreqBackend :=
  match serializer streams with
  | Except.error e =>
      { result := Outcome.panicked (panicMessage e), requests := [], post := b }
  | Except.ok log_stream_text =>
      match b.endpoint.join pushPath with
      | Except.error e =>
          { result := Outcome.panicked (panicMessage e), requests := [], post := b }
      | Except.ok post_url =>
          match transport (b.requestFor post_url log_stream_text) with
          | Except.error e =>
              { result := Outcome.err e
                requests := [b.requestFor post_url log_stream_text]
                post := b }
          | Except.ok _ =>
              { result := Outcome.ok ()
                requests := [b.requestFor post_url log_stream_text]
                post := b }

/-- `UreqBackend::authentication_method` (src/ureq.rs lines 56-58):
returns a clone of the stored method. -/
def UreqBackend.authentication_method (b : UreqBackend) : AuthenticationMethod :=
  b.authentication

/-- `UreqBackend::credentials` (src/ureq.rs lines 60-65): `Some` of the
stored string when it is non-empty, `None` otherwise.  (Named
`credentialsOpt` because the structure field keeps the source field's
name `credentials`.) -/
def UreqBackend.credentialsOpt (b : UreqBackend) : Option String :=
  if b.credentials.length > 0 then Option.some b.credentials else Option.none

/-- The Rust types whose `TypeId`s the embedding distinguishes. -/
inductive RustType where
  | ureqBackend
  | nopBackend
  | typeIdType
  deriving DecidableEq, Repr

/-- `std::any::TypeId`: an opaque identifier, equal exactly for identical
types. -/
structure TypeId where
  ofType : RustType
  deriving DecidableEq, Repr

/-- `TypeId::of::<T>()`. -/
def TypeId.of (t : RustType) : TypeId := ⟨t⟩

/-- `Any::type_id(&self)` called on a value that is itself a `TypeId`:
it returns the `TypeId` of the value's own type, which is the type
`TypeId`, not the type the value identifies. -/
def TypeId.type_id (_v : TypeId) : TypeId := TypeId.of RustType.typeIdType

/-- `UreqBackend::internal_type` (src/ureq.rs lines 50-54): the source
computes `TypeId::of::<Self>().type_id()`, i.e. the `type_id` of the
`TypeId` value itself. -/
def UreqBackend.internal_type (_b : UreqBackend) : TypeId :=
  (TypeId.of RustType.ureqBackend).type_id

/-! Concrete fixtures used by counterexamples and witnesses. -/

/-- The URL the url crate produces for `https://loki.example.com`
(the empty path is normalized to `/`). -/
def lokiExampleCom : Url :=
  { scheme := "https", host := "loki.example.com", port := Option.none
    path := "/", cannotBeABase := false }

/-- A cannot-be-a-base URL such as `data:text/plain,x`. -/
def dataUrlX : Url :=
  { scheme := "data", host := "", port := Option.none
    path := "text/plain,x", cannotBeABase := true }

/-- An empty batch of streams. -/
def emptyStreams : Streams := { streams := [] }

/-- A serializer that succeeds with a fixed payload. -/
def okSerializer : SerializationFn := fun _ => Except.ok "payload"

/-- A serializer that fails. -/
def failingSerializer : SerializationFn := fun _ => Except.error "boom"

/-- A transport on which every request succeeds. -/
def okTransport : Transport := fun _ => Except.ok ()

/-- An HTTP backend with Basic authentication configured. -/
def basicBackend : UreqBackend :=
  { endpoint := lokiExampleCom, authentication := AuthenticationMethod.basic
    credentials := "dXNlcm5hbWU6cGFzc3dvcmQ=" }

/-- An HTTP backend with no authentication and no credentials. -/
def noAuthBackend : UreqBackend :=
  { endpoint := lokiExampleCom, authentication := AuthenticationMethod.none
    credentials := "" }

/-- An HTTP backend whose endpoint cannot be a base for relative URLs. -/
def dataBackend : UreqBackend :=
  { endpoint := dataUrlX, authentication := AuthenticationMethod.none
    credentials := "" }

/-- An HTTP backend whose stored method is `None` but whose stored
credential string is non-empty. -/
def mixedBackend : UreqBackend :=
  { endpoint := lokiExampleCom, authentication := AuthenticationMethod.none
    credentials := "abc" }

/-! C1. -/

/-- C1 counterexample: with a serializer that returns an error, `send`
aborts via `unwrap` (panics) and does not return the failure as an
explicit error value — refuting the claim that a serializer error is
returned to the caller rather than aborting. -/
theorem c1_serializer_error_panics_counterexample :
    (basicBackend.send emptyStreams failingSerializer okTransport).result =
      Outcome.panicked (panicMessage "boom") ∧
    (basicBackend.send emptyStreams failingSerializer okTransport).result.isErrValue = false := by
  constructor <;> rfl

/-- C1 amended: if the supplied serialization function returns an error
for the given streams, `send` panics (`unwrap` on the `Err`) with the
unwrap panic message; the failure is not returned as an error value and
no request is issued. -/
theorem c1_serializer_error_panics (b : UreqBackend) (streams : Streams)
    (serializer : SerializationFn) (transport : Transport) (e : String)
    (h : serializer streams = Except.error e) :
    (b.send streams serializer transport).result = Outcome.panicked (panicMessage e) ∧
    (b.send streams serializer transport).result.isErrValue = false ∧
    (b.send streams serializer transport).requests = [] := by
  refine ⟨?_, ?_, ?_⟩ <;> simp [UreqBackend.send, h, Outcome.isErrValue]

/-- C1 witness: the amended theorem applied at a concrete failing
serializer. -/
theorem c1_serializer_error_panics_witness :
    failingSerializer emptyStreams = Except.error "boom" ∧
    ((basicBackend.send emptyStreams failingSerializer okTransport).result =
        Outcome.panicked (panicMessage "boom") ∧
      (basicBackend.send emptyStreams failingSerializer okTransport).result.isErrValue = false ∧
      (basicBackend.send emptyStreams failingSerializer okTransport).requests = []) :=
  ⟨rfl, c1_serializer_error_panics basicBackend emptyStreams failingSerializer okTransport
    "boom" rfl⟩

/-! C2. -/

/-- C2 counterexample: with a cannot-be-a-base endpoint the join of
`/loki/api/v1/push` fails, and `send` aborts via `unwrap` (panics)
instead of returning a descriptive error value — refuting the claim that
a join failure is returned as an error and does not panic. -/
theorem c2_join_error_panics_counterexample :
    (dataBackend.send emptyStreams okSerializer okTransport).result =
      Outcome.panicked (panicMessage "relative URL with a cannot-be-a-base base") ∧
    (dataBackend.send emptyStreams okSerializer okTransport).result.isErrValue = false := by
  constructor <;> rfl

/-- C2 amended: when serialization succeeds but the base endpoint cannot
accept a relative path, joining the push path fails and `send` panics
(`unwrap` on the `Err`); the failure is not returned as an error value. -/
theorem c2_join_error_panics (b : UreqBackend) (streams : Streams)
    (serializer : SerializationFn) (transport : Transport) (text : String)
    (h1 : serializer streams = Except.ok text)
    (h2 : b.endpoint.cannotBeABase = true) :
    (b.send streams serializer transport).result =
      Outcome.panicked (panicMessage "relative URL with a cannot-be-a-base base") ∧
    (b.send streams serializer transport).result.isErrValue = false := by
  constructor <;> simp [UreqBackend.send, h1, Url.join, h2, Outcome.isErrValue]

/-- C2 witness: the amended theorem applied at a concrete
cannot-be-a-base endpoint. -/
theorem c2_join_error_panics_witness :
    okSerializer emptyStreams = Except.ok "payload" ∧
    dataBackend.endpoint.cannotBeABase = true ∧
    ((dataBackend.send emptyStreams okSerializer okTransport).result =
        Outcome.panicked (panicMessage "relative URL with a cannot-be-a-base base") ∧
      (dataBackend.send emptyStreams okSerializer okTransport).result.isErrValue = false) :=
  ⟨rfl, rfl, c2_join_error_panics dataBackend emptyStreams okSerializer okTransport
    "payload" rfl rfl⟩

/-! C3. -/

/-- C3 counterexample: a backend whose stored method is `None` but whose
stored credential string is non-empty still gets `Some` from
`credentials()` — refuting the claimed equivalence with
`authentication_method() != None and the string is non-empty`. -/
theorem c3_credentials_iff_counterexample :
    ¬ ((mixedBackend.credentialsOpt).isSome = true ↔
        (mixedBackend.authentication_method ≠ AuthenticationMethod.none ∧
          mixedBackend.credentials ≠ "")) := by
  decide

/-- C3 amended: `credentials()` returns `Some` of the stored string if and
only if the stored credential string is non-empty, independently of the
stored authentication method; otherwise it returns `None`. -/
theorem c3_credentials_iff_nonempty (b : UreqBackend) :
    (b.credentials ≠ "" ∧ b.credentialsOpt = Option.some b.credentials) ∨
    (b.credentials = "" ∧ b.credentialsOpt = Option.none) := by
  by_cases h : b.credentials = ""
  · right
    refine ⟨h, ?_⟩
    simp [UreqBackend.credentialsOpt, h]
  · left
    refine ⟨h, ?_⟩
    have hlen : b.credentials.length > 0 := by
      cases hb : b.credentials with
      | mk data =>
        cases data with
        | nil => exact absurd hb h
        | cons c cs => simp [String.length]
    simp [UreqBackend.credentialsOpt, hlen]

/-- The push URL obtained by joining `pushPath` onto `lokiExampleCom`. -/
def lokiPushUrl : Url := { lokiExampleCom with path := pushPath }

/-- A base endpoint with a non-empty path, `https://host/tenant`. -/
def tenantBackend : UreqBackend :=
  { endpoint := { scheme := "https", host := "host", port := Option.none
                  path := "/tenant", cannotBeABase := false }
    authentication := AuthenticationMethod.none
    credentials := "" }

/-! C4. -/

/-- C4: for every no-op backend instance and every streams payload,
`send` returns `Ok(())` and issues no HTTP request (no I/O), and the
accessors always report `None` / absent — the no-op backend stores no
authentication state at all, so this holds regardless of what
authentication configuration was requested. -/
theorem c4_noop_backend (b : NopBackend) (streams : Streams) :
    (b.send streams).result = Outcome.ok () ∧
    (b.send streams).requests = [] ∧
    b.authentication_method = AuthenticationMethod.none ∧
    b.credentials = Option.none :=
  ⟨rfl, rfl, rfl, rfl⟩

/-! C5. -/

/-- C5: on the non-panicking path, the single request `send` issues is
`requestFor`, whose header list is exactly Content-Type followed by
`Authorization: Basic <stored credentials>` when the stored method is
`Basic`, and exactly Content-Type alone (no Authorization header) when
the stored method is `None`; the credential string is used as stored,
with no re-encoding. -/
theorem c5_authorization_header (b : UreqBackend) (streams : Streams)
    (serializer : SerializationFn) (transport : Transport) (text : String) (url : Url)
    (h1 : serializer streams = Except.ok text)
    (h2 : b.endpoint.join pushPath = Except.ok url) :
    (b.send streams serializer transport).requests = [b.requestFor url text] ∧
    (b.authentication = AuthenticationMethod.basic →
      (b.requestFor url text).headers =
        [("Content-Type", "application/json; charset=utf-8"),
         ("Authorization", "Basic " ++ b.credentials)]) ∧
    (b.authentication = AuthenticationMethod.none →
      (b.requestFor url text).headers =
        [("Content-Type", "application/json; charset=utf-8")]) := by
  refine ⟨?_, ?_, ?_⟩
  · cases htr : transport (b.requestFor url text) <;>
      simp [UreqBackend.send, h1, h2, htr]
  · intro hauth
    simp [UreqBackend.requestFor, hauth]
  · intro hauth
    simp [UreqBackend.requestFor, hauth]

/-- C5 witness: the theorem applied to the Basic-auth backend with the
pre-encoded credential string. -/
theorem c5_authorization_header_witness :
    okSerializer emptyStreams = Except.ok "payload" ∧
    basicBackend.endpoint.join pushPath = Except.ok lokiPushUrl ∧
    ((basicBackend.send emptyStreams okSerializer okTransport).requests =
        [basicBackend.requestFor lokiPushUrl "payload"] ∧
      (basicBackend.authentication = AuthenticationMethod.basic →
        (basicBackend.requestFor lokiPushUrl "payload").headers =
          [("Content-Type", "application/json; charset=utf-8"),
           ("Authorization", "Basic " ++ basicBackend.credentials)]) ∧
      (basicBackend.authentication = AuthenticationMethod.none →
        (basicBackend.requestFor lokiPushUrl "payload").headers =
          [("Content-Type", "application/json; charset=utf-8")])) :=
  ⟨rfl, rfl, c5_authorization_header basicBackend emptyStreams okSerializer okTransport
    "payload" lokiPushUrl rfl rfl⟩

/-! C6. -/

/-- C6: with base endpoint `https://loki.example.com`, joining the push
path yields exactly `https://loki.example.com/loki/api/v1/push`, and on
the non-panicking path that URL is the target of the single POST request
`send` issues. -/
theorem c6_push_url (b : UreqBackend) (streams : Streams)
    (serializer : SerializationFn) (transport : Transport) (text : String)
    (hb : b.endpoint = lokiExampleCom)
    (h1 : serializer streams = Except.ok text) :
    b.endpoint.join pushPath = Except.ok lokiPushUrl ∧
    lokiPushUrl.render = "https://loki.example.com/loki/api/v1/push" ∧
    (b.send streams serializer transport).requests = [b.requestFor lokiPushUrl text] ∧
    (b.requestFor lokiPushUrl text).method = "POST" ∧
    (b.requestFor lokiPushUrl text).url = lokiPushUrl := by
  have hj : b.endpoint.join pushPath = Except.ok lokiPushUrl := by
    rw [hb]; rfl
  refine ⟨hj, rfl, ?_, rfl, rfl⟩
  cases htr : transport (b.requestFor lokiPushUrl text) <;>
    simp [UreqBackend.send, h1, hj, htr]

/-- C6 witness: the theorem applied to a concrete backend whose endpoint
is `https://loki.example.com`. -/
theorem c6_push_url_witness :
    noAuthBackend.endpoint = lokiExampleCom ∧
    okSerializer emptyStreams = Except.ok "payload" ∧
    (noAuthBackend.endpoint.join pushPath = Except.ok lokiPushUrl ∧
      lokiPushUrl.render = "https://loki.example.com/loki/api/v1/push" ∧
      (noAuthBackend.send emptyStreams okSerializer okTransport).requests =
        [noAuthBackend.requestFor lokiPushUrl "payload"] ∧
      (noAuthBackend.requestFor lokiPushUrl "payload").method = "POST" ∧
      (noAuthBackend.requestFor lokiPushUrl "payload").url = lokiPushUrl) :=
  ⟨rfl, rfl, c6_push_url noAuthBackend emptyStreams okSerializer okTransport
    "payload" rfl rfl⟩

/-! C7. -/

/-- C7: on the non-panicking path, `send` issues exactly one request, and
that request is a POST carrying the Content-Type header
`application/json; charset=utf-8`, configured with a 10-second timeout
and carrying the serialized payload as its body. -/
theorem c7_post_request_shape (b : UreqBackend) (streams : Streams)
    (serializer : SerializationFn) (transport : Transport) (text : String) (url : Url)
    (h1 : serializer streams = Except.ok text)
    (h2 : b.endpoint.join pushPath = Except.ok url) :
    (b.send streams serializer transport).requests = [b.requestFor url text] ∧
    (b.requestFor url text).method = "POST" ∧
    ("Content-Type", "application/json; charset=utf-8") ∈ (b.requestFor url text).headers ∧
    (b.requestFor url text).timeoutSecs = 10 ∧
    (b.requestFor url text).body = text := by
  refine ⟨?_, rfl, ?_, rfl, rfl⟩
  · cases htr : transport (b.requestFor url text) <;>
      simp [UreqBackend.send, h1, h2, htr]
  · simp [UreqBackend.requestFor]

/-- C7 witness: the theorem applied at a concrete backend, serializer and
transport. -/
theorem c7_post_request_shape_witness :
    okSerializer emptyStreams = Except.ok "payload" ∧
    noAuthBackend.endpoint.join pushPath = Except.ok lokiPushUrl ∧
    ((noAuthBackend.send emptyStreams okSerializer okTransport).requests =
        [noAuthBackend.requestFor lokiPushUrl "payload"] ∧
      (noAuthBackend.requestFor lokiPushUrl "payload").method = "POST" ∧
      ("Content-Type", "application/json; charset=utf-8") ∈
        (noAuthBackend.requestFor lokiPushUrl "payload").headers ∧
      (noAuthBackend.requestFor lokiPushUrl "payload").timeoutSecs = 10 ∧
      (noAuthBackend.requestFor lokiPushUrl "payload").body = "payload") :=
  ⟨rfl, rfl, c7_post_request_shape noAuthBackend emptyStreams okSerializer okTransport
    "payload" lokiPushUrl rfl rfl⟩

/-! C8. -/

/-- C8: for both backends and every input — every serializer and every
transport outcome — `send` leaves the stored configuration unchanged:
the post-call state equals the pre-call state. -/
theorem c8_send_preserves_configuration (b : UreqBackend) (streams : Streams)
    (serializer : SerializationFn) (transport : Transport)
    (nb : NopBackend) (streams2 : Streams) :
    (b.send streams serializer transport).post = b ∧ (nb.send streams2).post = nb := by
  constructor
  · cases h1 : serializer streams with
    | error e => simp [UreqBackend.send, h1]
    | ok t =>
      cases h2 : b.endpoint.join pushPath with
      | error e => simp [UreqBackend.send, h1, h2]
      | ok u =>
        cases h3 : transport (b.requestFor u t) <;>
          simp [UreqBackend.send, h1, h2, h3]
  · rfl

/-! C9. -/

/-- C9: because the push path starts with a leading slash, joining it
onto any base that can be a base replaces the base's whole path: the
computed push URL keeps the base's scheme, host and port but its path is
exactly `/loki/api/v1/push`, whatever the base's own path was. -/
theorem c9_base_path_discarded (b : UreqBackend)
    (h : b.endpoint.cannotBeABase = false) :
    b.endpoint.join pushPath = Except.ok { b.endpoint with path := pushPath } ∧
    ({ b.endpoint with path := pushPath } : Url).path = "/loki/api/v1/push" := by
  constructor
  · simp [Url.join, h]
  · rfl

/-- C9 witness: the theorem applied to a base endpoint with the non-empty
path `/tenant`, which is discarded. -/
theorem c9_base_path_discarded_witness :
    tenantBackend.endpoint.cannotBeABase = false ∧
    (tenantBackend.endpoint.join pushPath =
        Except.ok { tenantBackend.endpoint with path := pushPath } ∧
      ({ tenantBackend.endpoint with path := pushPath } : Url).path =
        "/loki/api/v1/push") :=
  ⟨rfl, c9_base_path_discarded tenantBackend rfl⟩

/-! C10. -/

/-- C10: `internal_type` returns the `TypeId` of the type `TypeId`
itself — not of `UreqBackend` — and is therefore the same constant for
every backend instance, unable to distinguish implementations. -/
theorem c10_internal_type_is_typeid_of_typeid (b b2 : UreqBackend) :
    b.internal_type = TypeId.of RustType.typeIdType ∧
    b.internal_type = b2.internal_type ∧
    b.internal_type ≠ TypeId.of RustType.ureqBackend := by
  refine ⟨rfl, rfl, ?_⟩
  show TypeId.of RustType.typeIdType ≠ TypeId.of RustType.ureqBackend
  decide

end Fenrir
